import Mathlib

/-!
Shallow embedding of the iZettle API client's session/token lifecycle
manager (file iZettle/iZettle.py): the `auth` token-grant operation, the
`_authenticate_request` decorator (expiry pre-check and the single
401-expired retry), the `_response_handler` decorator (decode or raise),
and the `RequestException` diagnostic extraction.

Modelling conventions:
- timestamps are integers (`time.time()` observations are passed in
  explicitly: one for the expiry pre-check, one per `auth` call);
- an HTTP response is its status code, its raw text, and the result of
  `request.json()` (`none` models a `ValueError` from JSON decoding);
- JSON values are restricted to the strings and integers the client
  consumes; a parsed body is an association list of fields;
- Python exceptions are the `PyError` type: `RequestException` (carrying
  message, response and extracted `developer_message`), `ValueError` from
  JSON decoding, `KeyError` from a missing dict key, and `TypeError` from
  `time.time() + expires_in` when `expires_in` is not a number;
- mutation of `self` is explicit state passing; because Python leaves
  assignments made before an exception in place, `auth` returns the state
  as mutated so far together with the error;
- the network is an oracle: each `requests.*` call consumes a scripted
  response, and every outbound request is recorded as an `Event` so that
  "how many token grants / dispatches happened" is a statement about the
  event list.
-/

namespace IZettleClient

/-- JSON values as consumed by the client: strings and integer numbers. -/
inductive JValue where
  | str (s : String)
  | num (n : Int)
deriving DecidableEq, Repr

/-- A parsed JSON object body: an association list of fields. -/
abbrev JObject := List (String × JValue)

/-- Field lookup in a parsed JSON object, as `key in json_data` /
`json_data[key]` on a Python dict (first binding wins; a dict has unique
keys anyway). -/
def jGet (j : JObject) (k : String) : Option JValue :=
  (j.find? (fun p => p.1 == k)).map (fun p => p.2)

/-- An HTTP response as the client observes it: `status_code`, `text`,
and the outcome of `request.json()` (`none` when the body is not valid
JSON, in which case `.json()` raises `ValueError`). -/
structure Response where
  status : Nat
  text : String
  jsonBody : Option JObject
deriving DecidableEq, Repr

/-- The `developer_message` attribute computed by `RequestException.__init__`
(iZettle/iZettle.py lines 19-39): start from `''`; if the body parses,
take `developerMessage`, else `error_description`, else `error`, else
leave `''`; a `ValueError` from `.json()` leaves `''`. -/
def developerMessageOf (resp : Response) : JValue :=
  match resp.jsonBody with
  | none => .str ""
  | some j =>
    match jGet j "developerMessage" with
    | some v => v
    | none =>
      match jGet j "error_description" with
      | some v => v
      | none =>
        match jGet j "error" with
        | some v => v
        | none => .str ""

/-- The data carried by a raised `RequestException`: the short message,
the response object, and the extracted diagnostic. -/
structure RequestExceptionData where
  msg : String
  request : Response
  developer_message : JValue
deriving DecidableEq, Repr

/-- Constructing a `RequestException` runs the diagnostic extraction. -/
def mkRequestException (msg : String) (resp : Response) : RequestExceptionData :=
  { msg := msg, request := resp, developer_message := developerMessageOf resp }

/-- The Python exceptions that can escape the modelled code. -/
inductive PyError where
  | requestException (e : RequestExceptionData)
  | valueError
  | keyError (k : String)
  | typeError
deriving DecidableEq, Repr

/-- The error kind the spec calls AuthenticationError: the
`RequestException` raised by `auth` on a non-200 token response
(message `"Failed to authenticate session"`). -/
def PyError.isAuthFailure : PyError → Bool
  | .requestException e => e.msg == "Failed to authenticate session"
  | _ => false

/-- The error kind the spec calls RequestError: the `RequestException`
raised by `_response_handler` (message `"request error {status}"`). -/
def PyError.isRequestFailure : PyError → Bool
  | .requestException e => e.msg == "request error " ++ toString e.request.status
  | _ => false

/-- The `RequestException` raised by `auth` on a non-200 token response. -/
def authFailureExn (resp : Response) : PyError :=
  .requestException (mkRequestException "Failed to authenticate session" resp)

/-- The `RequestException` raised by `_response_handler` on a non-ok
response. -/
def requestFailureExn (resp : Response) : PyError :=
  .requestException (mkRequestException ("request error " ++ toString resp.status) resp)

/-- The session manager's state: credentials (fixed at construction) and
the mutable token state `__token`, `__refresh_token`,
`__session_valid_until`. Header assembly (line 458-462) only repackages
`__token` and is not modelled separately. -/
structure Izettle where
  client_id : String
  client_secret : String
  user : String
  password : String
  token : Option JValue
  refresh_token : Option JValue
  session_valid_until : Int
deriving DecidableEq, Repr

/-- Form data of a POST to the token endpoint, in dict insertion order. -/
abbrev FormData := List (String × JValue)

/-- Lookup of a form field. -/
def formGet (d : FormData) (k : String) : Option JValue :=
  (d.find? (fun p => p.1 == k)).map (fun p => p.2)

/-- The body `auth` posts to the OAuth token endpoint (lines 434-447):
a refresh grant when a refresh token is held, otherwise a password
grant; `client_id`/`client_secret` are then added to either grant.
(The Python assigns one-element tuples for the last two fields due to
trailing commas; `requests` form-encodes `('x',)` and `'x'` to the same
single field, so the wire value is the plain string.) -/
def authData (c : Izettle) : FormData :=
  (match c.refresh_token with
   | some rt => [("grant_type", JValue.str "refresh_token"), ("refresh_token", rt)]
   | none => [("grant_type", JValue.str "password"),
              ("username", JValue.str c.user), ("password", JValue.str c.password)]) ++
  [("client_id", JValue.str c.client_id), ("client_secret", JValue.str c.client_secret)]

/-- Outbound network requests, in order: a POST of form data to the fixed
OAuth token endpoint, or a dispatch of the wrapped resource request. -/
inductive Event where
  | tokenGrant (data : FormData)
  | dispatch
deriving DecidableEq, Repr

/-- Whether an event is a token-grant POST. -/
def Event.isTokenGrant : Event → Bool
  | .tokenGrant _ => true
  | .dispatch => false

/-- Result of running `auth`: the state as left behind (Python keeps the
assignments made before an exception), the escaping exception if any,
and the outbound requests made. -/
structure AuthOutcome where
  state : Izettle
  error : Option PyError
  events : List Event
deriving DecidableEq, Repr

/-- The `auth` method (lines 429-464), given the observation of
`time.time()` at line 457 and the token endpoint's response to the single
POST it sends. Non-200 raises `RequestException`; then
`request.json()` may raise `ValueError`; then the three assignments run
in order, each able to raise `KeyError` (or `TypeError` if `expires_in`
is not a number) leaving the earlier assignments in place. The outer
`@_response_handler` on `auth` only re-decodes the 200 response it
returns and adds no state effect. -/
def auth (c : Izettle) (now : Int) (resp : Response) : AuthOutcome :=
  if resp.status ≠ 200 then
    { state := c, error := some (authFailureExn resp),
      events := [.tokenGrant (authData c)] }
  else
    match resp.jsonBody with
    | none =>
      { state := c, error := some .valueError, events := [.tokenGrant (authData c)] }
    | some j =>
      match jGet j "access_token" with
      | none =>
        { state := c, error := some (.keyError "access_token"),
          events := [.tokenGrant (authData c)] }
      | some tok =>
        match jGet j "refresh_token" with
        | none =>
          { state := { c with token := some tok },
            error := some (.keyError "refresh_token"),
            events := [.tokenGrant (authData c)] }
        | some rt =>
          match jGet j "expires_in" with
          | none =>
            { state := { c with token := some tok, refresh_token := some rt },
              error := some (.keyError "expires_in"),
              events := [.tokenGrant (authData c)] }
          | some (.str _) =>
            { state := { c with token := some tok, refresh_token := some rt },
              error := some .typeError, events := [.tokenGrant (authData c)] }
          | some (.num n) =>
            { state := { c with token := some tok, refresh_token := some rt,
                                session_valid_until := now + n - 60 },
              error := none, events := [.tokenGrant (authData c)] }

/-- `Izettle.__init__` (lines 70-81): store credentials, start with no
token and `__session_valid_until = 0`, and call `auth` immediately. -/
def initIzettle (client_id client_secret user password : String)
    (now : Int) (resp : Response) : AuthOutcome :=
  auth { client_id := client_id, client_secret := client_secret,
         user := user, password := password,
         token := none, refresh_token := none, session_valid_until := 0 }
    now resp

/-- The network script for one guarded call: the `time.time()`
observation and token-endpoint response for the pre-check `auth` (used
only if the session is expired), the response to the first dispatch, the
observation/response for the retry `auth` (used only on the 401-expired
path), and the response to the re-dispatch. -/
structure CallEnv where
  preAuthNow : Int
  preAuthResp : Response
  resp1 : Response
  retryAuthNow : Int
  retryAuthResp : Response
  resp2 : Response
deriving DecidableEq, Repr

/-- What `_authenticate_request`'s inner function produces: either the
response it returns to `_response_handler`, or an exception that escaped. -/
inductive WrapResult where
  | resp (r : Response)
  | exn (e : PyError)
deriving DecidableEq, Repr

/-- Outcome of the `_authenticate_request` stage: final state, returned
response or escaped exception, and the outbound requests in order. -/
structure WrapOutcome where
  state : Izettle
  result : WrapResult
  events : List Event
deriving DecidableEq, Repr

/-- The expiry pre-check and first dispatch (lines 87-94): `if
self.__session_valid_until < time.time(): self.auth()`; an exception
from `auth` escapes, otherwise the wrapped request is dispatched and its
response (the script's `resp1`) taken. -/
def preCheckAuth (c : Izettle) (now : Int) (env : CallEnv) : WrapOutcome :=
  if c.session_valid_until < now then
    match auth c env.preAuthNow env.preAuthResp with
    | ⟨st, some e, evs⟩ => { state := st, result := .exn e, events := evs }
    | ⟨st, none, evs⟩ =>
      { state := st, result := .resp env.resp1, events := evs ++ [.dispatch] }
  else
    { state := c, result := .resp env.resp1, events := [.dispatch] }

/-- The retry branch (lines 100-101): `self.auth()` then one re-dispatch;
the re-dispatch response (the script's `resp2`) is returned without any
further inspection, and an exception from this `auth` escapes. -/
def retryDispatch (w : WrapOutcome) (env : CallEnv) : WrapOutcome :=
  match auth w.state env.retryAuthNow env.retryAuthResp with
  | ⟨st, some e, evs⟩ => { state := st, result := .exn e, events := w.events ++ evs }
  | ⟨st, none, evs⟩ =>
    { state := st, result := .resp env.resp2,
      events := w.events ++ evs ++ [.dispatch] }

/-- The 401 inspection (lines 96-101): only on a 401 is
`response.json()['errorType']` read (raising `ValueError`/`KeyError` as
Python would); only the sentinel `'ACCESS_TOKEN_EXPIRED'` triggers the
retry branch; any other response is returned as-is. -/
def inspect401 (w : WrapOutcome) (env : CallEnv) : WrapOutcome :=
  match w.result with
  | .exn _ => w
  | .resp r =>
    if r.status = 401 then
      match r.jsonBody with
      | none => { w with result := .exn .valueError }
      | some j =>
        match jGet j "errorType" with
        | none => { w with result := .exn (.keyError "errorType") }
        | some v =>
          if v = .str "ACCESS_TOKEN_EXPIRED" then retryDispatch w env
          else w
    else w

/-- The `_authenticate_request` decorator (lines 83-104) around a wrapped
dispatch, given the pre-check `time.time()` observation `now` and the
network script. -/
def authenticateRequest (c : Izettle) (now : Int) (env : CallEnv) : WrapOutcome :=
  inspect401 (preCheckAuth c now env) env

/-- What a guarded call returns to the caller: the decoded JSON payload,
the empty dict for an empty body, or a raised exception. -/
inductive CallResult where
  | ok (j : JObject)
  | okEmpty
  | exn (e : PyError)
deriving DecidableEq, Repr

/-- The `_response_handler` decorator (lines 106-119) applied to a
response: `request.ok` (true iff `status_code < 400`) with non-empty
`text` decodes the body (`ValueError` when it is not JSON); ok with
empty text returns `{}`; otherwise `RequestException('request error
{status}')` is raised. -/
def responseHandler (resp : Response) : CallResult :=
  if resp.status < 400 then
    if resp.text ≠ "" then
      match resp.jsonBody with
      | some j => .ok j
      | none => .exn .valueError
    else .okEmpty
  else .exn (requestFailureExn resp)

/-- Full outcome of a guarded call. -/
structure CallOutcome where
  state : Izettle
  result : CallResult
  events : List Event
deriving DecidableEq, Repr

/-- Lifting `_response_handler` over the wrapper's outcome: an exception
escaping `_authenticate_request` propagates; a returned response is
decoded or raised on. -/
def handleWrap (w : WrapOutcome) : CallOutcome :=
  match w.result with
  | .exn e => { state := w.state, result := .exn e, events := w.events }
  | .resp r => { state := w.state, result := responseHandler r, events := w.events }

/-- One authenticated call through the `combined_decorator` pipeline
(line 182): `_response_handler` around `_authenticate_request` around
the dispatch. -/
def combinedCall (c : Izettle) (now : Int) (env : CallEnv) : CallOutcome :=
  handleWrap (authenticateRequest c now env)

/-- Spec-side definition for the diagnostic rule (C8's wording): try the
fields in the exact order developerMessage, error_description, error and
take the first one present; an unparseable body gives the empty string. -/
def firstErrorField (resp : Response) : JValue :=
  match resp.jsonBody with
  | none => .str ""
  | some j =>
    ((["developerMessage", "error_description", "error"].filterMap (jGet j)).head?).getD
      (.str "")

/-! Concrete fixtures used by counterexamples and witnesses. -/

/-- A manager state holding a token pair, valid until timestamp 1000. -/
def cFresh : Izettle :=
  { client_id := "cid", client_secret := "sec", user := "u", password := "pw",
    token := some (.str "tk"), refresh_token := some (.str "rt"),
    session_valid_until := 1000 }

/-- A manager state holding a token but no refresh token. -/
def cNoRefresh : Izettle := { cFresh with refresh_token := none }

/-- A manager state whose session expired at timestamp 10. -/
def cStale : Izettle := { cFresh with session_valid_until := 10 }

/-- A successful token-endpoint response declaring a 7200 s lifetime. -/
def respTokenOk : Response :=
  ⟨200, "tok", some [("access_token", .str "at2"), ("refresh_token", .str "rt2"),
                     ("expires_in", .num 7200)]⟩

/-- A successful token-endpoint response declaring a 60 s lifetime. -/
def respTokenLife60 : Response :=
  ⟨200, "tok", some [("access_token", .str "a3"), ("refresh_token", .str "r3"),
                     ("expires_in", .num 60)]⟩

/-- A 200 token-endpoint response whose body lacks `access_token`. -/
def respTokenNoAccess : Response :=
  ⟨200, "tok", some [("token_type", .str "bearer")]⟩

/-- A 200 token-endpoint response carrying only `access_token`. -/
def respTokenOnlyAccess : Response :=
  ⟨200, "tok", some [("access_token", .str "a1")]⟩

/-- A 500 failure from the token endpoint. -/
def respAuth500 : Response := ⟨500, "oops", none⟩

/-- A 400 failure from the token endpoint with OAuth error fields. -/
def respErrDesc : Response :=
  ⟨400, "err", some [("error_description", .str "Invalid client_id"),
                     ("error", .str "invalid_client")]⟩

/-- A 401 resource response carrying the expiry sentinel. -/
def resp401Expired : Response :=
  ⟨401, "err", some [("errorType", .str "ACCESS_TOKEN_EXPIRED")]⟩

/-- A 401 resource response carrying a different error type. -/
def resp401Other : Response :=
  ⟨401, "err", some [("errorType", .str "INVALID_AUTHORIZATION")]⟩

/-- A 401 resource response whose body is not JSON. -/
def resp401NoJson : Response := ⟨401, "gateway error", none⟩

/-- A 401 resource response whose JSON body lacks `errorType`. -/
def resp401NoType : Response := ⟨401, "err", some [("message", .str "denied")]⟩

/-- A 200 resource response with a JSON body. -/
def resp200Body : Response := ⟨200, "ok", some [("name", .str "p")]⟩

/-- A 200 resource response with an empty body. -/
def resp200Empty : Response := ⟨200, "", none⟩

/-- A 304 resource response (not 2xx, yet `request.ok` is true). -/
def resp304 : Response := ⟨304, "", none⟩

/-- A network script whose resource responses are plain successes. -/
def baseEnv : CallEnv :=
  { preAuthNow := 20, preAuthResp := respTokenOk, resp1 := resp200Body,
    retryAuthNow := 30, retryAuthResp := respTokenOk, resp2 := resp200Body }

/-- Script for C1's counterexample: first dispatch hits the expiry
sentinel, and the re-authentication itself fails with a 500. -/
def envC1a : CallEnv := { baseEnv with resp1 := resp401Expired, retryAuthResp := respAuth500 }

/-- Script for C1's witness: first dispatch hits the expiry sentinel and
the re-authentication succeeds. -/
def envC1b : CallEnv := { baseEnv with resp1 := resp401Expired }

/-- Script for C5: first dispatch is a 401 with a non-sentinel error type. -/
def envC5 : CallEnv := { baseEnv with resp1 := resp401Other }

/-- Script for C6's counterexample: first dispatch is a 304. -/
def envC6 : CallEnv := { baseEnv with resp1 := resp304 }

/-- Script for C10: first dispatch is a 401 whose body is not JSON. -/
def envC10 : CallEnv := { baseEnv with resp1 := resp401NoJson }

/-! Helper lemmas shared by the claim theorems. -/

lemma auth_events (c : Izettle) (now : Int) (resp : Response) :
    (auth c now resp).events = [Event.tokenGrant (authData c)] := by
  unfold auth
  repeat' split
  all_goals rfl

lemma combinedCall_events (c : Izettle) (now : Int) (env : CallEnv) :
    (combinedCall c now env).events = (authenticateRequest c now env).events := by
  unfold combinedCall handleWrap
  split <;> rfl

lemma combinedCall_state (c : Izettle) (now : Int) (env : CallEnv) :
    (combinedCall c now env).state = (authenticateRequest c now env).state := by
  unfold combinedCall handleWrap
  split <;> rfl

lemma auth_non200 (c : Izettle) (now : Int) (resp : Response) (h : resp.status ≠ 200) :
    auth c now resp =
      ⟨c, some (authFailureExn resp), [Event.tokenGrant (authData c)]⟩ := by
  unfold auth
  rw [if_pos h]

lemma auth_noJson (c : Izettle) (now : Int) (resp : Response)
    (h200 : resp.status = 200) (hj : resp.jsonBody = none) :
    auth c now resp = ⟨c, some .valueError, [Event.tokenGrant (authData c)]⟩ := by
  unfold auth
  rw [if_neg (by simp [h200])]
  simp only [hj]

lemma auth_noAccess (c : Izettle) (now : Int) (resp : Response) (j : JObject)
    (h200 : resp.status = 200) (hj : resp.jsonBody = some j)
    (ht : jGet j "access_token" = none) :
    auth c now resp =
      ⟨c, some (.keyError "access_token"), [Event.tokenGrant (authData c)]⟩ := by
  unfold auth
  rw [if_neg (by simp [h200])]
  simp only [hj, ht]

lemma auth_noRefreshKey (c : Izettle) (now : Int) (resp : Response) (j : JObject)
    (tok : JValue) (h200 : resp.status = 200) (hj : resp.jsonBody = some j)
    (ht : jGet j "access_token" = some tok) (hr : jGet j "refresh_token" = none) :
    auth c now resp =
      ⟨{ c with token := some tok }, some (.keyError "refresh_token"),
       [Event.tokenGrant (authData c)]⟩ := by
  unfold auth
  rw [if_neg (by simp [h200])]
  simp only [hj, ht, hr]

lemma auth_noExpiry (c : Izettle) (now : Int) (resp : Response) (j : JObject)
    (tok rt : JValue) (h200 : resp.status = 200) (hj : resp.jsonBody = some j)
    (ht : jGet j "access_token" = some tok) (hr : jGet j "refresh_token" = some rt)
    (he : jGet j "expires_in" = none) :
    auth c now resp =
      ⟨{ c with token := some tok, refresh_token := some rt },
       some (.keyError "expires_in"), [Event.tokenGrant (authData c)]⟩ := by
  unfold auth
  rw [if_neg (by simp [h200])]
  simp only [hj, ht, hr, he]

lemma auth_strExpiry (c : Izettle) (now : Int) (resp : Response) (j : JObject)
    (tok rt : JValue) (s : String) (h200 : resp.status = 200)
    (hj : resp.jsonBody = some j) (ht : jGet j "access_token" = some tok)
    (hr : jGet j "refresh_token" = some rt)
    (he : jGet j "expires_in" = some (.str s)) :
    auth c now resp =
      ⟨{ c with token := some tok, refresh_token := some rt },
       some .typeError, [Event.tokenGrant (authData c)]⟩ := by
  unfold auth
  rw [if_neg (by simp [h200])]
  simp only [hj, ht, hr, he]

lemma auth_success (c : Izettle) (now : Int) (resp : Response) (j : JObject)
    (tok rt : JValue) (n : Int) (h200 : resp.status = 200)
    (hj : resp.jsonBody = some j) (ht : jGet j "access_token" = some tok)
    (hr : jGet j "refresh_token" = some rt)
    (he : jGet j "expires_in" = some (.num n)) :
    auth c now resp =
      ⟨{ c with token := some tok, refresh_token := some rt,
                session_valid_until := now + n - 60 },
       none, [Event.tokenGrant (authData c)]⟩ := by
  unfold auth
  rw [if_neg (by simp [h200])]
  simp only [hj, ht, hr, he]

lemma auth_ok_inv (c : Izettle) (now : Int) (resp : Response)
    (h : (auth c now resp).error = none) :
    ∃ j tok rt n, resp.status = 200 ∧ resp.jsonBody = some j ∧
      jGet j "access_token" = some tok ∧ jGet j "refresh_token" = some rt ∧
      jGet j "expires_in" = some (.num n) ∧
      auth c now resp =
        ⟨{ c with token := some tok, refresh_token := some rt,
                  session_valid_until := now + n - 60 },
         none, [Event.tokenGrant (authData c)]⟩ := by
  by_cases hs : resp.status = 200
  case neg =>
    rw [auth_non200 c now resp hs] at h
    simp at h
  cases hj : resp.jsonBody with
  | none =>
    rw [auth_noJson c now resp hs hj] at h
    simp at h
  | some j =>
    cases ht : jGet j "access_token" with
    | none =>
      rw [auth_noAccess c now resp j hs hj ht] at h
      simp at h
    | some tok =>
      cases hr : jGet j "refresh_token" with
      | none =>
        rw [auth_noRefreshKey c now resp j tok hs hj ht hr] at h
        simp at h
      | some rt =>
        cases he : jGet j "expires_in" with
        | none =>
          rw [auth_noExpiry c now resp j tok rt hs hj ht hr he] at h
          simp at h
        | some v =>
          cases v with
          | str s =>
            rw [auth_strExpiry c now resp j tok rt s hs hj ht hr he] at h
            simp at h
          | num n =>
            exact ⟨j, tok, rt, n, hs, rfl, ht, hr, he,
              auth_success c now resp j tok rt n hs hj ht hr he⟩

lemma preCheckAuth_fresh (c : Izettle) (now : Int) (env : CallEnv)
    (h : ¬ c.session_valid_until < now) :
    preCheckAuth c now env = ⟨c, .resp env.resp1, [Event.dispatch]⟩ := by
  unfold preCheckAuth
  rw [if_neg h]

lemma preCheckAuth_expired_ok (c : Izettle) (now : Int) (env : CallEnv)
    (st : Izettle) (evs : List Event) (h : c.session_valid_until < now)
    (ha : auth c env.preAuthNow env.preAuthResp = ⟨st, none, evs⟩) :
    preCheckAuth c now env = ⟨st, .resp env.resp1, evs ++ [Event.dispatch]⟩ := by
  unfold preCheckAuth
  rw [if_pos h, ha]

lemma preCheckAuth_expired_err (c : Izettle) (now : Int) (env : CallEnv)
    (st : Izettle) (e : PyError) (evs : List Event) (h : c.session_valid_until < now)
    (ha : auth c env.preAuthNow env.preAuthResp = ⟨st, some e, evs⟩) :
    preCheckAuth c now env = ⟨st, .exn e, evs⟩ := by
  unfold preCheckAuth
  rw [if_pos h, ha]

lemma retryDispatch_ok (w : WrapOutcome) (env : CallEnv) (st : Izettle)
    (evs : List Event)
    (ha : auth w.state env.retryAuthNow env.retryAuthResp = ⟨st, none, evs⟩) :
    retryDispatch w env =
      ⟨st, .resp env.resp2, w.events ++ evs ++ [Event.dispatch]⟩ := by
  unfold retryDispatch
  rw [ha]

lemma retryDispatch_err (w : WrapOutcome) (env : CallEnv) (st : Izettle)
    (e : PyError) (evs : List Event)
    (ha : auth w.state env.retryAuthNow env.retryAuthResp = ⟨st, some e, evs⟩) :
    retryDispatch w env = ⟨st, .exn e, w.events ++ evs⟩ := by
  unfold retryDispatch
  rw [ha]

lemma inspect401_not401 (w : WrapOutcome) (env : CallEnv) (r : Response)
    (hw : w.result = .resp r) (h : ¬ r.status = 401) :
    inspect401 w env = w := by
  unfold inspect401
  simp only [hw]
  rw [if_neg h]

lemma inspect401_noJson (w : WrapOutcome) (env : CallEnv) (r : Response)
    (hw : w.result = .resp r) (h401 : r.status = 401) (hj : r.jsonBody = none) :
    inspect401 w env = { w with result := .exn .valueError } := by
  unfold inspect401
  simp only [hw]
  rw [if_pos h401]
  simp only [hj]

lemma inspect401_noType (w : WrapOutcome) (env : CallEnv) (r : Response)
    (j : JObject) (hw : w.result = .resp r) (h401 : r.status = 401)
    (hj : r.jsonBody = some j) (hv : jGet j "errorType" = none) :
    inspect401 w env = { w with result := .exn (.keyError "errorType") } := by
  unfold inspect401
  simp only [hw]
  rw [if_pos h401]
  simp only [hj, hv]

lemma inspect401_other (w : WrapOutcome) (env : CallEnv) (r : Response)
    (j : JObject) (v : JValue) (hw : w.result = .resp r) (h401 : r.status = 401)
    (hj : r.jsonBody = some j) (hv : jGet j "errorType" = some v)
    (hne : v ≠ .str "ACCESS_TOKEN_EXPIRED") :
    inspect401 w env = w := by
  unfold inspect401
  simp only [hw]
  rw [if_pos h401]
  simp only [hj, hv]
  rw [if_neg hne]

lemma inspect401_sentinel (w : WrapOutcome) (env : CallEnv) (r : Response)
    (j : JObject) (hw : w.result = .resp r) (h401 : r.status = 401)
    (hj : r.jsonBody = some j)
    (hv : jGet j "errorType" = some (.str "ACCESS_TOKEN_EXPIRED")) :
    inspect401 w env = retryDispatch w env := by
  unfold inspect401
  simp only [hw]
  rw [if_pos h401]
  simp only [hj, hv]
  simp

lemma handleWrap_resp (w : WrapOutcome) (r : Response) (hw : w.result = .resp r) :
    handleWrap w = ⟨w.state, responseHandler r, w.events⟩ := by
  unfold handleWrap
  rw [hw]

lemma handleWrap_exn (w : WrapOutcome) (e : PyError) (hw : w.result = .exn e) :
    handleWrap w = ⟨w.state, .exn e, w.events⟩ := by
  unfold handleWrap
  rw [hw]

lemma requestFailureExn_isRequestFailure (resp : Response) :
    (requestFailureExn resp).isRequestFailure = true := by
  simp [requestFailureExn, mkRequestException, PyError.isRequestFailure]

lemma inspect401_events_head (w : WrapOutcome) (env : CallEnv) (a : Event)
    (h : w.events.head? = some a) :
    (inspect401 w env).events.head? = some a := by
  rcases hev : w.events with _ | ⟨x, xs⟩
  · rw [hev] at h
    simp at h
  · have hx : x = a := by
      rw [hev] at h
      simpa using h
    subst hx
    unfold inspect401 retryDispatch
    repeat' split
    all_goals simp [hev]

lemma authenticateRequest_events_head (c : Izettle) (now : Int) (env : CallEnv) :
    (authenticateRequest c now env).events.head? =
      if c.session_valid_until < now then some (Event.tokenGrant (authData c))
      else some Event.dispatch := by
  unfold authenticateRequest
  by_cases hexp : c.session_valid_until < now
  · rw [if_pos hexp]
    refine inspect401_events_head _ env _ ?_
    unfold preCheckAuth
    rw [if_pos hexp]
    rcases ha : auth c env.preAuthNow env.preAuthResp with ⟨st, err, evs⟩
    have hev := auth_events c env.preAuthNow env.preAuthResp
    rw [ha] at hev
    simp only at hev
    cases err <;> simp [hev]
  · rw [if_neg hexp]
    refine inspect401_events_head _ env _ ?_
    rw [preCheckAuth_fresh c now env hexp]
    rfl

/-- C1 counterexample: with a fresh session, a first dispatch that is a
401 carrying the expiry sentinel, and a token endpoint that answers the
re-authentication with a 500, the call performs NO re-dispatch (the
dispatch count stays 1) and surfaces the re-authentication failure, so
the claim's "exactly one re-authentication followed by exactly one
re-dispatch ... whatever the second attempt produces is returned" fails
at this input (its universally quantified re-dispatch never happens). -/
theorem C1_counterexample :
    envC1a.resp1.status = 401 ∧
    envC1a.resp1.jsonBody = some [("errorType", .str "ACCESS_TOKEN_EXPIRED")] ∧
    (combinedCall cFresh 5 envC1a).events.count Event.dispatch = 1 ∧
    (combinedCall cFresh 5 envC1a).result = .exn (authFailureExn respAuth500) := by
  decide

/-- C1 (amended): on a fresh session whose first dispatch returns 401
with the expiry sentinel, exactly one re-authentication is performed; if
it succeeds, exactly one re-dispatch follows and the second attempt's
handled result is surfaced as-is; if the re-authentication fails, its
error is surfaced and no re-dispatch occurs. In neither case is the
first 401 surfaced, and no further retry is ever made. -/
theorem C1_amended_single_retry (c : Izettle) (now : Int) (env : CallEnv) (j : JObject)
    (hfresh : ¬ c.session_valid_until < now)
    (h401 : env.resp1.status = 401)
    (hj : env.resp1.jsonBody = some j)
    (hv : jGet j "errorType" = some (.str "ACCESS_TOKEN_EXPIRED")) :
    ((auth c env.retryAuthNow env.retryAuthResp).error = none →
      combinedCall c now env =
        ⟨(auth c env.retryAuthNow env.retryAuthResp).state,
         responseHandler env.resp2,
         [Event.dispatch, Event.tokenGrant (authData c), Event.dispatch]⟩) ∧
    (∀ e, (auth c env.retryAuthNow env.retryAuthResp).error = some e →
      combinedCall c now env =
        ⟨(auth c env.retryAuthNow env.retryAuthResp).state, .exn e,
         [Event.dispatch, Event.tokenGrant (authData c)]⟩) := by
  have hcall : combinedCall c now env =
      handleWrap (retryDispatch ⟨c, .resp env.resp1, [Event.dispatch]⟩ env) := by
    unfold combinedCall authenticateRequest
    rw [preCheckAuth_fresh c now env hfresh,
        inspect401_sentinel _ env env.resp1 j rfl h401 hj hv]
  rcases ha : auth c env.retryAuthNow env.retryAuthResp with ⟨st, err, evs⟩
  have hev : evs = [Event.tokenGrant (authData c)] := by
    have h0 := auth_events c env.retryAuthNow env.retryAuthResp
    rw [ha] at h0
    exact h0
  subst hev
  constructor
  · intro hok
    have herr : err = none := hok
    subst herr
    rw [hcall, retryDispatch_ok ⟨c, .resp env.resp1, [Event.dispatch]⟩ env st _ ha,
        handleWrap_resp _ env.resp2 rfl]
    rfl
  · intro e he
    have herr : err = some e := he
    subst herr
    rw [hcall, retryDispatch_err ⟨c, .resp env.resp1, [Event.dispatch]⟩ env st e _ ha,
        handleWrap_exn _ e rfl]
    rfl

/-- C1 witness: the amended theorem at a concrete fresh state and a
script whose retry authentication succeeds. -/
theorem C1_amended_single_retry_witness :
    ((auth cFresh envC1b.retryAuthNow envC1b.retryAuthResp).error = none →
      combinedCall cFresh 5 envC1b =
        ⟨(auth cFresh envC1b.retryAuthNow envC1b.retryAuthResp).state,
         responseHandler envC1b.resp2,
         [Event.dispatch, Event.tokenGrant (authData cFresh), Event.dispatch]⟩) ∧
    (∀ e, (auth cFresh envC1b.retryAuthNow envC1b.retryAuthResp).error = some e →
      combinedCall cFresh 5 envC1b =
        ⟨(auth cFresh envC1b.retryAuthNow envC1b.retryAuthResp).state, .exn e,
         [Event.dispatch, Event.tokenGrant (authData cFresh)]⟩) :=
  C1_amended_single_retry cFresh 5 envC1b [("errorType", .str "ACCESS_TOKEN_EXPIRED")]
    (by decide) (by decide) (by decide) (by decide)

/-- C2 counterexample: at the boundary instant where the current time
equals the stored expiry instant (claim: time ≥ expiry requires a grant),
the code's strict `<` pre-check issues NO token-grant request: the whole
call dispatches without any grant, refuting the claim's "if and only if
current time ≥ stored expiry". -/
theorem C2_counterexample :
    cFresh.token ≠ none ∧
    cFresh.session_valid_until ≤ 1000 ∧
    (combinedCall cFresh 1000 baseEnv).events = [Event.dispatch] ∧
    (combinedCall cFresh 1000 baseEnv).events.filter Event.isTokenGrant = [] := by
  decide

/-- C2 (amended): a token-grant request precedes the dispatch if and
only if the stored expiry instant is STRICTLY less than the current
time; equivalently the call's first outbound request is the dispatch iff
the session is still considered valid (`expiry ≥ now`). The fresh state
is left alone; the no-token initial state (expiry 0) re-authenticates at
any positive time. -/
theorem C2_amended_strict_precheck (c : Izettle) (now : Int) (env : CallEnv) :
    ((combinedCall c now env).events.head? = some (Event.tokenGrant (authData c)) ↔
      c.session_valid_until < now) ∧
    ((combinedCall c now env).events.head? = some Event.dispatch ↔
      ¬ c.session_valid_until < now) := by
  rw [combinedCall_events, authenticateRequest_events_head]
  by_cases hexp : c.session_valid_until < now
  · rw [if_pos hexp]
    constructor
    · exact ⟨fun _ => hexp, fun _ => rfl⟩
    · constructor
      · intro h
        simp at h
      · intro h
        exact absurd hexp h
  · rw [if_neg hexp]
    constructor
    · constructor
      · intro h
        simp at h
      · intro h
        exact absurd h hexp
    · exact ⟨fun _ => hexp, fun _ => rfl⟩

/-- C2 witness: the amended theorem at a concrete expired state. -/
theorem C2_amended_strict_precheck_witness :
    ((combinedCall cStale 1000 baseEnv).events.head? =
        some (Event.tokenGrant (authData cStale)) ↔
      cStale.session_valid_until < 1000) ∧
    ((combinedCall cStale 1000 baseEnv).events.head? = some Event.dispatch ↔
      ¬ cStale.session_valid_until < 1000) :=
  C2_amended_strict_precheck cStale 1000 baseEnv

/-- C3 counterexample: a 200 token-endpoint response whose body lacks the
access token field makes `auth` fail with a `KeyError`, not with the
AuthenticationError kind (the non-200 `RequestException`), refuting the
claim's "or with a 200 response whose body lacks the access token field,
authenticate fails with an AuthenticationError". -/
theorem C3_counterexample :
    respTokenNoAccess.status = 200 ∧
    (auth cFresh 1000 respTokenNoAccess).error =
      some (PyError.keyError "access_token") ∧
    (PyError.keyError "access_token").isAuthFailure = false ∧
    (PyError.keyError "access_token").isRequestFailure = false := by
  decide

/-- C3 (amended): any non-200 token response makes `auth` fail with the
AuthenticationError-kind `RequestException` carrying the raw response
(hence its status), leaving the state untouched; at construction the
same failure escapes `__init__` and no resource request is ever
dispatched. A 200 response lacking the access token field instead fails
with a `KeyError`, a distinct error kind. -/
theorem C3_amended_nonok_auth (cid cs u pw : String) (c : Izettle) (now : Int)
    (resp : Response) :
    (resp.status ≠ 200 →
      auth c now resp =
        ⟨c, some (authFailureExn resp), [Event.tokenGrant (authData c)]⟩ ∧
      (authFailureExn resp).isAuthFailure = true ∧
      (initIzettle cid cs u pw now resp).error = some (authFailureExn resp) ∧
      Event.dispatch ∉ (initIzettle cid cs u pw now resp).events) ∧
    (∀ j, resp.status = 200 → resp.jsonBody = some j →
      jGet j "access_token" = none →
      (auth c now resp).error = some (.keyError "access_token")) := by
  constructor
  · intro hs
    refine ⟨auth_non200 c now resp hs, ?_, ?_, ?_⟩
    · simp [authFailureExn, mkRequestException, PyError.isAuthFailure]
    · unfold initIzettle
      rw [auth_non200 _ now resp hs]
    · unfold initIzettle
      rw [auth_non200 _ now resp hs]
      simp
  · intro j h200 hj ht
    rw [auth_noAccess c now resp j h200 hj ht]

/-- C3 witness: the amended theorem at concrete credentials and a 500
token-endpoint response. -/
theorem C3_amended_nonok_auth_witness :
    (respAuth500.status ≠ 200 →
      auth cFresh 2000 respAuth500 =
        ⟨cFresh, some (authFailureExn respAuth500),
         [Event.tokenGrant (authData cFresh)]⟩ ∧
      (authFailureExn respAuth500).isAuthFailure = true ∧
      (initIzettle "cid" "sec" "u" "pw" 2000 respAuth500).error =
        some (authFailureExn respAuth500) ∧
      Event.dispatch ∉ (initIzettle "cid" "sec" "u" "pw" 2000 respAuth500).events) ∧
    (∀ j, respAuth500.status = 200 → respAuth500.jsonBody = some j →
      jGet j "access_token" = none →
      (auth cFresh 2000 respAuth500).error = some (.keyError "access_token")) :=
  C3_amended_nonok_auth "cid" "sec" "u" "pw" cFresh 2000 respAuth500

/-- C4 counterexample: a 200 token response carrying only `access_token`
leaves a PARTIAL update visible: the call fails (with `KeyError
refresh_token`) yet the stored access token has already changed while
the refresh token and expiry instant kept their old values, refuting
"on any failure all three components are exactly as they were". -/
theorem C4_counterexample :
    (auth cNoRefresh 100 respTokenOnlyAccess).error =
      some (PyError.keyError "refresh_token") ∧
    (auth cNoRefresh 100 respTokenOnlyAccess).state.token = some (JValue.str "a1") ∧
    cNoRefresh.token ≠ some (JValue.str "a1") ∧
    (auth cNoRefresh 100 respTokenOnlyAccess).state.refresh_token =
      cNoRefresh.refresh_token ∧
    (auth cNoRefresh 100 respTokenOnlyAccess).state.session_valid_until =
      cNoRefresh.session_valid_until := by
  decide

/-- C4 (amended): on success all three token-state components are
replaced from the grant; on a non-200 failure, an unparseable body, or a
body lacking `access_token`, the state is exactly as before; but a 200
body containing `access_token` while lacking `refresh_token` fails after
updating the access token alone, so a partial update is visible there. -/
theorem C4_amended_update_visibility (c : Izettle) (now : Int) (resp : Response) :
    ((auth c now resp).error = none →
      ∃ j tok rt n, resp.jsonBody = some j ∧
        jGet j "access_token" = some tok ∧ jGet j "refresh_token" = some rt ∧
        jGet j "expires_in" = some (.num n) ∧
        (auth c now resp).state =
          { c with token := some tok, refresh_token := some rt,
                   session_valid_until := now + n - 60 }) ∧
    (resp.status ≠ 200 → (auth c now resp).state = c) ∧
    (resp.jsonBody = none → (auth c now resp).state = c) ∧
    (∀ j, resp.jsonBody = some j → jGet j "access_token" = none →
      (auth c now resp).state = c) ∧
    (∀ j tok, resp.status = 200 → resp.jsonBody = some j →
      jGet j "access_token" = some tok → jGet j "refresh_token" = none →
      (auth c now resp).state = { c with token := some tok } ∧
      (auth c now resp).error = some (.keyError "refresh_token")) := by
  refine ⟨?_, ?_, ?_, ?_, ?_⟩
  · intro h
    obtain ⟨j, tok, rt, n, hs, hj, ht, hr, he, heq⟩ := auth_ok_inv c now resp h
    exact ⟨j, tok, rt, n, hj, ht, hr, he, by rw [heq]⟩
  · intro hs
    rw [auth_non200 c now resp hs]
  · intro hj
    by_cases hs : resp.status = 200
    · rw [auth_noJson c now resp hs hj]
    · rw [auth_non200 c now resp hs]
  · intro j hj ht
    by_cases hs : resp.status = 200
    · rw [auth_noAccess c now resp j hs hj ht]
    · rw [auth_non200 c now resp hs]
  · intro j tok h200 hj ht hr
    rw [auth_noRefreshKey c now resp j tok h200 hj ht hr]
    exact ⟨rfl, rfl⟩

/-- C4 witness: the amended theorem at a concrete state and a fully
successful token response. -/
theorem C4_amended_update_visibility_witness :
    ((auth cNoRefresh 100 respTokenOk).error = none →
      ∃ j tok rt n, respTokenOk.jsonBody = some j ∧
        jGet j "access_token" = some tok ∧ jGet j "refresh_token" = some rt ∧
        jGet j "expires_in" = some (.num n) ∧
        (auth cNoRefresh 100 respTokenOk).state =
          { cNoRefresh with token := some tok, refresh_token := some rt,
                            session_valid_until := 100 + n - 60 }) ∧
    (respTokenOk.status ≠ 200 → (auth cNoRefresh 100 respTokenOk).state = cNoRefresh) ∧
    (respTokenOk.jsonBody = none → (auth cNoRefresh 100 respTokenOk).state = cNoRefresh) ∧
    (∀ j, respTokenOk.jsonBody = some j → jGet j "access_token" = none →
      (auth cNoRefresh 100 respTokenOk).state = cNoRefresh) ∧
    (∀ j tok, respTokenOk.status = 200 → respTokenOk.jsonBody = some j →
      jGet j "access_token" = some tok → jGet j "refresh_token" = none →
      (auth cNoRefresh 100 respTokenOk).state = { cNoRefresh with token := some tok } ∧
      (auth cNoRefresh 100 respTokenOk).error = some (.keyError "refresh_token")) :=
  C4_amended_update_visibility cNoRefresh 100 respTokenOk

/-- C5: on a fresh session, a 401 whose structured error type is present
but different from the expiry sentinel triggers no re-authentication and
no retry: the call's only outbound request is the single dispatch, the
state is unchanged, and the 401 is surfaced immediately as the
RequestError-kind `RequestException`. -/
theorem C5_non_sentinel_401 (c : Izettle) (now : Int) (env : CallEnv)
    (j : JObject) (v : JValue)
    (hfresh : ¬ c.session_valid_until < now)
    (h401 : env.resp1.status = 401)
    (hj : env.resp1.jsonBody = some j)
    (hv : jGet j "errorType" = some v)
    (hne : v ≠ .str "ACCESS_TOKEN_EXPIRED") :
    combinedCall c now env =
      ⟨c, .exn (requestFailureExn env.resp1), [Event.dispatch]⟩ ∧
    (requestFailureExn env.resp1).isRequestFailure = true := by
  refine ⟨?_, requestFailureExn_isRequestFailure env.resp1⟩
  unfold combinedCall authenticateRequest
  rw [preCheckAuth_fresh c now env hfresh,
      inspect401_other _ env env.resp1 j v rfl h401 hj hv hne,
      handleWrap_resp _ env.resp1 rfl]
  show CallOutcome.mk c (responseHandler env.resp1) [Event.dispatch] = _
  unfold responseHandler
  rw [if_neg (by omega)]

/-- C5 witness: the theorem at a concrete fresh state and a 401 with a
non-sentinel error type. -/
theorem C5_non_sentinel_401_witness :
    combinedCall cFresh 5 envC5 =
      ⟨cFresh, .exn (requestFailureExn envC5.resp1), [Event.dispatch]⟩ ∧
    (requestFailureExn envC5.resp1).isRequestFailure = true :=
  C5_non_sentinel_401 cFresh 5 envC5
    [("errorType", .str "INVALID_AUTHORIZATION")] (.str "INVALID_AUTHORIZATION")
    (by decide) (by decide) (by decide) (by decide) (by decide)

/-- C6 counterexample: a final response with status 304 — not a 2xx —
does NOT raise a RequestError: `request.ok` is `status < 400`, so the
call returns the empty result, refuting the claim's "any non-2xx status
raises a RequestError". -/
theorem C6_counterexample :
    envC6.resp1.status = 304 ∧
    (304 < 200 ∨ 299 < 304) ∧
    (combinedCall cFresh 5 envC6).result = CallResult.okEmpty := by
  decide

/-- C6 (amended): the decode contract is keyed on `request.ok`, i.e.
status < 400 (which includes 3xx), not on 2xx: an ok status with a
non-empty JSON body yields the decoded payload, an ok status with an
empty body yields the empty result, an ok status with an undecodable
non-empty body raises a JSON decode error, and any status ≥ 400 raises
the RequestError-kind `RequestException` carrying the raw response
(hence its status). Stated on a fresh session for a non-401 first
response (the 401 path is governed by C1/C5/C10). -/
theorem C6_amended_ok_contract (c : Izettle) (now : Int) (env : CallEnv)
    (hfresh : ¬ c.session_valid_until < now) (hn401 : env.resp1.status ≠ 401) :
    (∀ j, env.resp1.status < 400 → env.resp1.text ≠ "" →
      env.resp1.jsonBody = some j → (combinedCall c now env).result = .ok j) ∧
    (env.resp1.status < 400 → env.resp1.text = "" →
      (combinedCall c now env).result = .okEmpty) ∧
    (env.resp1.status < 400 → env.resp1.text ≠ "" → env.resp1.jsonBody = none →
      (combinedCall c now env).result = .exn .valueError) ∧
    (400 ≤ env.resp1.status →
      (combinedCall c now env).result = .exn (requestFailureExn env.resp1) ∧
      (requestFailureExn env.resp1).isRequestFailure = true) := by
  have hcc : combinedCall c now env =
      ⟨c, responseHandler env.resp1, [Event.dispatch]⟩ := by
    unfold combinedCall authenticateRequest
    rw [preCheckAuth_fresh c now env hfresh,
        inspect401_not401 _ env env.resp1 rfl hn401,
        handleWrap_resp _ env.resp1 rfl]
  rw [hcc]
  refine ⟨?_, ?_, ?_, ?_⟩
  · intro j hok htext hj
    show responseHandler env.resp1 = _
    unfold responseHandler
    rw [if_pos hok, if_pos htext]
    simp only [hj]
  · intro hok htext
    show responseHandler env.resp1 = _
    unfold responseHandler
    rw [if_pos hok, if_neg (by simp [htext])]
  · intro hok htext hj
    show responseHandler env.resp1 = _
    unfold responseHandler
    rw [if_pos hok, if_pos htext]
    simp only [hj]
  · intro hge
    refine ⟨?_, requestFailureExn_isRequestFailure env.resp1⟩
    show responseHandler env.resp1 = _
    unfold responseHandler
    rw [if_neg (by omega)]

/-- C6 witness: the amended theorem at a concrete fresh state and a 200
JSON response. -/
theorem C6_amended_ok_contract_witness :
    (∀ j, baseEnv.resp1.status < 400 → baseEnv.resp1.text ≠ "" →
      baseEnv.resp1.jsonBody = some j →
      (combinedCall cFresh 5 baseEnv).result = .ok j) ∧
    (baseEnv.resp1.status < 400 → baseEnv.resp1.text = "" →
      (combinedCall cFresh 5 baseEnv).result = .okEmpty) ∧
    (baseEnv.resp1.status < 400 → baseEnv.resp1.text ≠ "" →
      baseEnv.resp1.jsonBody = none →
      (combinedCall cFresh 5 baseEnv).result = .exn .valueError) ∧
    (400 ≤ baseEnv.resp1.status →
      (combinedCall cFresh 5 baseEnv).result = .exn (requestFailureExn baseEnv.resp1) ∧
      (requestFailureExn baseEnv.resp1).isRequestFailure = true) :=
  C6_amended_ok_contract cFresh 5 baseEnv (by decide) (by decide)

/-- C7 counterexample: a refresh grant the server accepts with a declared
lifetime of exactly 60 seconds sets the expiry instant EQUAL to the call
time, refuting the unconditional "strictly greater than the call time"
(the formula `now + lifetime − 60` itself holds). -/
theorem C7_counterexample :
    cFresh.refresh_token ≠ none ∧
    (auth cFresh 1000 respTokenLife60).error = none ∧
    (auth cFresh 1000 respTokenLife60).state.session_valid_until = 1000 ∧
    ¬ (1000 : Int) < (auth cFresh 1000 respTokenLife60).state.session_valid_until := by
  decide

/-- C7 (amended): every successful `auth` stores
`expiry = call time + declared lifetime − 60`; this is strictly greater
than the call time whenever the declared lifetime exceeds the 60-second
safety margin (as the real service's 7200 does), and only then. -/
theorem C7_amended_expiry_formula (c : Izettle) (now : Int) (resp : Response)
    (j : JObject) (tok rt : JValue) (n : Int)
    (h200 : resp.status = 200) (hj : resp.jsonBody = some j)
    (ht : jGet j "access_token" = some tok) (hr : jGet j "refresh_token" = some rt)
    (he : jGet j "expires_in" = some (.num n)) :
    (auth c now resp).error = none ∧
    (auth c now resp).state.session_valid_until = now + n - 60 ∧
    (60 < n → now < (auth c now resp).state.session_valid_until) := by
  rw [auth_success c now resp j tok rt n h200 hj ht hr he]
  refine ⟨rfl, rfl, ?_⟩
  intro hn
  show now < now + n - 60
  omega

/-- C7 witness: the amended theorem at a concrete refresh-holding state
and the 7200-second grant. -/
theorem C7_amended_expiry_formula_witness :
    (auth cFresh 1000 respTokenOk).error = none ∧
    (auth cFresh 1000 respTokenOk).state.session_valid_until = 1000 + 7200 - 60 ∧
    (60 < (7200 : Int) → 1000 < (auth cFresh 1000 respTokenOk).state.session_valid_until) :=
  C7_amended_expiry_formula cFresh 1000 respTokenOk
    [("access_token", .str "at2"), ("refresh_token", .str "rt2"),
     ("expires_in", .num 7200)]
    (.str "at2") (.str "rt2") 7200
    (by decide) (by decide) (by decide) (by decide) (by decide)

/-- C10: on a fresh session, a 401 whose body is not JSON or lacks the
`errorType` field neither retries nor raises a RequestError: the call's
only outbound request is the single dispatch and it fails with a
JSON-decoding (`ValueError`) or missing-key (`KeyError`) error, distinct
from both specified error kinds. -/
theorem C10_malformed_401 (c : Izettle) (now : Int) (env : CallEnv)
    (hfresh : ¬ c.session_valid_until < now)
    (h401 : env.resp1.status = 401)
    (hbad : env.resp1.jsonBody = none ∨
      ∃ j, env.resp1.jsonBody = some j ∧ jGet j "errorType" = none) :
    ∃ e, combinedCall c now env = ⟨c, .exn e, [Event.dispatch]⟩ ∧
      (e = .valueError ∨ e = .keyError "errorType") ∧
      e.isAuthFailure = false ∧ e.isRequestFailure = false := by
  rcases hbad with hj | ⟨j, hj, hv⟩
  · refine ⟨.valueError, ?_, Or.inl rfl, rfl, rfl⟩
    unfold combinedCall authenticateRequest
    rw [preCheckAuth_fresh c now env hfresh,
        inspect401_noJson _ env env.resp1 rfl h401 hj,
        handleWrap_exn _ .valueError rfl]
  · refine ⟨.keyError "errorType", ?_, Or.inr rfl, rfl, rfl⟩
    unfold combinedCall authenticateRequest
    rw [preCheckAuth_fresh c now env hfresh,
        inspect401_noType _ env env.resp1 j rfl h401 hj hv,
        handleWrap_exn _ (.keyError "errorType") rfl]

/-- C10 witness: the theorem at a concrete fresh state and a 401 whose
body is not JSON. -/
theorem C10_malformed_401_witness :
    ∃ e, combinedCall cFresh 5 envC10 = ⟨cFresh, .exn e, [Event.dispatch]⟩ ∧
      (e = .valueError ∨ e = .keyError "errorType") ∧
      e.isAuthFailure = false ∧ e.isRequestFailure = false :=
  C10_malformed_401 cFresh 5 envC10 (by decide) (by decide) (Or.inl (by decide))

/-- C8: for every error response (authentication or request), the
diagnostic attached by the `RequestException` constructor is the first
field present among developerMessage, error_description, error, tried in
that exact order, and the empty string when the body is not parseable
JSON. -/
theorem C8_diagnostic_extraction_order (msg : String) (resp : Response) :
    (mkRequestException msg resp).developer_message = firstErrorField resp ∧
    (resp.jsonBody = none → (mkRequestException msg resp).developer_message = .str "") := by
  constructor
  · show developerMessageOf resp = firstErrorField resp
    unfold developerMessageOf firstErrorField
    cases resp.jsonBody with
    | none => rfl
    | some j =>
      cases h1 : jGet j "developerMessage" <;>
        cases h2 : jGet j "error_description" <;>
          cases h3 : jGet j "error" <;>
            simp [List.filterMap_cons, h1, h2, h3]
  · intro h
    show developerMessageOf resp = .str ""
    unfold developerMessageOf
    rw [h]

theorem C8_diagnostic_extraction_order_witness :
    (mkRequestException "request error 400" respErrDesc).developer_message =
      firstErrorField respErrDesc ∧
    (respErrDesc.jsonBody = none →
      (mkRequestException "request error 400" respErrDesc).developer_message = .str "") :=
  C8_diagnostic_extraction_order "request error 400" respErrDesc

/-- C9: every `auth` call sends exactly one POST to the token endpoint;
the form data is a refresh grant (`grant_type = refresh_token` plus the
stored refresh token) when a refresh token is held and a password grant
(`grant_type = password` plus stored username and password) otherwise,
and in both cases carries the client identifier and client secret. -/
theorem C9_grant_request_shape (c : Izettle) (now : Int) (resp : Response) :
    (auth c now resp).events = [Event.tokenGrant (authData c)] ∧
    formGet (authData c) "client_id" = some (.str c.client_id) ∧
    formGet (authData c) "client_secret" = some (.str c.client_secret) ∧
    (∀ rt, c.refresh_token = some rt →
      formGet (authData c) "grant_type" = some (.str "refresh_token") ∧
      formGet (authData c) "refresh_token" = some rt) ∧
    (c.refresh_token = none →
      formGet (authData c) "grant_type" = some (.str "password") ∧
      formGet (authData c) "username" = some (.str c.user) ∧
      formGet (authData c) "password" = some (.str c.password)) := by
  refine ⟨auth_events c now resp, ?_, ?_, ?_, ?_⟩
  · cases h : c.refresh_token <;> simp [authData, formGet, h, List.find?]
  · cases h : c.refresh_token <;> simp [authData, formGet, h, List.find?]
  · intro rt hrt
    constructor <;> simp [authData, formGet, hrt, List.find?]
  · intro h
    refine ⟨?_, ?_, ?_⟩ <;> simp [authData, formGet, h, List.find?]

theorem C9_grant_request_shape_witness :
    (auth cFresh 1000 respTokenOk).events = [Event.tokenGrant (authData cFresh)] ∧
    formGet (authData cFresh) "client_id" = some (.str cFresh.client_id) ∧
    formGet (authData cFresh) "client_secret" = some (.str cFresh.client_secret) ∧
    (∀ rt, cFresh.refresh_token = some rt →
      formGet (authData cFresh) "grant_type" = some (.str "refresh_token") ∧
      formGet (authData cFresh) "refresh_token" = some rt) ∧
    (cFresh.refresh_token = none →
      formGet (authData cFresh) "grant_type" = some (.str "password") ∧
      formGet (authData cFresh) "username" = some (.str cFresh.user) ∧
      formGet (authData cFresh) "password" = some (.str cFresh.password)) :=
  C9_grant_request_shape cFresh 1000 respTokenOk

end IZettleClient
